import Mathlib

/-!
Verification of the orchestration logic of the `entailment_xnli_bert_azureml`
notebook (nlp-recipes).  Each component named by the specification (Job
Packager, Report Formatter, Compute Provisioner, Job Submitter, Run Monitor,
and the `train.py` entry-point script) is shallowly embedded below, faithfully
to the notebook's code; the components whose deciding code lives in the Azure
ML SDK rather than in this repository are modelled from the specification and
marked as such in their doc comments.
-/

namespace XnliAzureml

/-! ## Notebook parameters (the `# Parameters` cell)

DEBUG = True, NODE_COUNT = 4, NUM_PROCESS = 1, DATA_PERCENT_USED = 1.0.
-/

def DEBUG : Bool := true

def NODE_COUNT : Nat := 4

def NUM_PROCESS : Nat := 1

def DATA_PERCENT_USED : ℚ := 1.0

/-! ## Job Packager (the staging-directory cell)

The notebook cell is:
```python
project_dir = "./entail_utils"
if DEBUG and os.path.exists(project_dir):
    shutil.rmtree(project_dir)
shutil.copytree("../../utils_nlp", os.path.join(project_dir, "utils_nlp"))
```
The staging directory `./entail_utils` is modelled as `Option` of a list of
named entries (`none` = the directory does not exist); the library tree that
`shutil.copytree` copies is abstracted as a value of an arbitrary type `α`.
`shutil.rmtree` removes the whole directory; `shutil.copytree src dst` creates
`dst` (creating missing parents, as `./entail_utils` when absent) and fails
with `FileExistsError` when `dst` itself already exists.
-/

instance exceptDecEq {ε α : Type} [DecidableEq ε] [DecidableEq α] :
    DecidableEq (Except ε α)
  | Except.error e1, Except.error e2 =>
      if h : e1 = e2 then Decidable.isTrue (by rw [h])
      else Decidable.isFalse (by intro hc; injection hc; contradiction)
  | Except.error e1, Except.ok a2 =>
      Decidable.isFalse (fun hc => Except.noConfusion hc)
  | Except.ok a1, Except.error e2 =>
      Decidable.isFalse (fun hc => Except.noConfusion hc)
  | Except.ok a1, Except.ok a2 =>
      if h : a1 = a2 then Decidable.isTrue (by rw [h])
      else Decidable.isFalse (by intro hc; injection hc; contradiction)

inductive CopyError where
  | fileExists
deriving DecidableEq

/-- One invocation of the staging cell: conditional `rmtree` guarded by
`DEBUG and os.path.exists(project_dir)`, then
`copytree("../../utils_nlp", project_dir + "/utils_nlp")`. -/
def jobPackager {α : Type} (debug : Bool) (lib : α)
    (staging : Option (List (String × α))) :
    Except CopyError (Option (List (String × α))) :=
  let staging1 := if debug && staging.isSome then none else staging
  match staging1 with
  | none => Except.ok (some [("utils_nlp", lib)])
  | some entries =>
      if entries.any (fun e => e.1 = "utils_nlp") then Except.error CopyError.fileExists
      else Except.ok (some (entries ++ [("utils_nlp", lib)]))

/-! ## Report Formatter (the final analysis cell)

The notebook cell is:
```python
with open("outputs/results.json", "r") as handle:
    parsed = json.load(handle)
    print(pd.DataFrame.from_dict(parsed).transpose())
```
A parsed results document is an association list from row label (class label
or average row) to a record, itself an association list from metric key to a
JSON value.  `pd.DataFrame.from_dict(parsed).transpose()` produces a table
whose rows are the outer keys in insertion order and whose columns are the
union of the inner keys in sorted order, with `NaN` (modelled `none`) for a
key absent from a row; this column behaviour is what the notebook's own
recorded output shows (columns `f1-score  precision  recall  support` for a
document whose records insert `precision` first).  No schema validation of
any kind is performed by the cell.
-/

inductive Jval where
  | num (q : ℚ)
  | str (s : String)
deriving DecidableEq

abbrev MetricRecord := List (String × Jval)

abbrev ResultsDoc := List (String × MetricRecord)

/-- Byte-wise comparison of characters, as pandas sorts string labels. -/
def charLe (c1 c2 : Char) : Bool := c1.toNat ≤ c2.toNat

/-- Lexicographic comparison of character lists. -/
def lexLe : List Char → List Char → Bool
  | [], _ => true
  | _ :: _, [] => false
  | c1 :: t1, c2 :: t2 => if c1 = c2 then lexLe t1 t2 else charLe c1 c2

def strLe (s1 s2 : String) : Bool := lexLe s1.data s2.data

def insertSorted (s : String) : List String → List String
  | [] => [s]
  | t :: ts => if strLe s t then s :: t :: ts else t :: insertSorted s ts

def sortStrings (l : List String) : List String := l.foldr insertSorted []

def dedupStrings : List String → List String
  | [] => []
  | k :: ks =>
      let r := dedupStrings ks
      if r.contains k then r else k :: r

/-- The sorted union of the inner keys of all records: the column index the
DataFrame displays after `.transpose()`. -/
def columnsOf (doc : ResultsDoc) : List String :=
  sortStrings (dedupStrings (doc.foldr (fun row acc => row.2.map Prod.fst ++ acc) []))

def lookupKey (k : String) (r : MetricRecord) : Option Jval :=
  (r.find? (fun kv => kv.1 = k)).map Prod.snd

/-- The table printed by the analysis cell: the column labels, and one row per
outer key (in insertion order) holding that row's cell values in column
order (`none` = `NaN`). -/
def renderResults (doc : ResultsDoc) :
    List String × List (String × List (Option Jval)) :=
  let cols := columnsOf doc
  (cols, doc.map (fun row => (row.1, cols.map (fun c => lookupKey c row.2))))

/-- The example results document of the specification: the `entailment` class
record (with keys in the insertion order `classification_report` produces)
plus a `micro avg` row of the same shape. -/
def exampleDoc : ResultsDoc :=
  [("entailment",
     [("precision", Jval.num 0.87), ("recall", Jval.num 0.76),
      ("f1-score", Jval.num 0.82), ("support", Jval.num 1670.0)]),
   ("micro avg",
     [("precision", Jval.num 0.81), ("recall", Jval.num 0.81),
      ("f1-score", Jval.num 0.81), ("support", Jval.num 5010.0)])]

/-- A malformed document: the `entailment` record lacks the `support` key. -/
def malformedDoc : ResultsDoc :=
  [("entailment",
     [("precision", Jval.num 0.87), ("recall", Jval.num 0.76),
      ("f1-score", Jval.num 0.82)]),
   ("micro avg",
     [("precision", Jval.num 0.81), ("recall", Jval.num 0.81),
      ("f1-score", Jval.num 0.81), ("support", Jval.num 5010.0)])]

/-- A malformed document: the `entailment` record carries a non-numeric
`precision` value. -/
def nonNumericDoc : ResultsDoc :=
  [("entailment",
     [("precision", Jval.str "N/A"), ("recall", Jval.num 0.76),
      ("f1-score", Jval.num 0.82), ("support", Jval.num 1670.0)])]

/-! ## Compute Provisioner (the ComputeTarget try/except cell)

The notebook cell is:
```python
try:
    compute_target = ComputeTarget(workspace=ws, name=cluster_name)
except ComputeTargetException:
    compute_config = AmlCompute.provisioning_configuration(
        vm_size="STANDARD_NC6", max_nodes=NODE_COUNT)
    compute_target = ComputeTarget.create(ws, cluster_name, compute_config)
    compute_target.wait_for_completion(show_output=True)
```
The SDK entry points `ComputeTarget`, `AmlCompute.provisioning_configuration`,
`ComputeTarget.create` and `wait_for_completion` are not code of this
repository; their semantics are modelled from the specification.
-/

inductive ProvisionError where
  | configurationError
deriving DecidableEq

structure ScaleSettings where
  vmSize : String
  minNodes : Int
  maxNodes : Int
deriving DecidableEq

structure Cluster where
  name : String
  vmSize : String
  minNodes : Int
  maxNodes : Int
deriving DecidableEq

/-- Modelled from the spec: `AmlCompute.provisioning_configuration` (Azure ML
SDK code, not in this repository) validates autoscale bounds — a requested
max node count of 0 is rejected with `ConfigurationError`, and every accepted
configuration satisfies `0 ≤ min ≤ max`.  The notebook's call leaves the
minimum at its default of 0. -/
def provisioning_configuration (vmSize : String) (minNodes maxNodes : Int) :
    Except ProvisionError ScaleSettings :=
  if maxNodes = 0 then Except.error ProvisionError.configurationError
  else if 0 ≤ minNodes ∧ minNodes ≤ maxNodes then
    Except.ok ⟨vmSize, minNodes, maxNodes⟩
  else Except.error ProvisionError.configurationError

inductive ProvState where
  | creating
  | succeeded
  | failed
deriving DecidableEq

def ProvState.terminal : ProvState → Bool
  | ProvState.creating => false
  | ProvState.succeeded => true
  | ProvState.failed => true

/-- The outcome of the provisioning cell: the resulting cluster handle,
whether a create request was issued, and — when one was — the terminal
provisioning state the blocking wait observed (`none` while still pending). -/
structure ProvisionOutcome where
  target : Cluster
  createIssued : Bool
  finalState : Option ProvState
deriving DecidableEq

/-- The provisioning cell.  `existing` is the result of the lookup by name
(`none` models `ComputeTargetException`); `trace` is the sequence of states
the fixed-interval polling of `wait_for_completion` (modelled from the spec:
it blocks until the first terminal state) would observe.  On a hit the cell
returns the existing cluster handle untouched and issues no create request;
on a miss it issues a create request with autoscale bounds `[0, nodeCount]`
and blocks until a terminal provisioning state. -/
def linkComputeTarget (existing : Option Cluster) (clusterName vmSize : String)
    (nodeCount : Int) (trace : List ProvState) :
    Except ProvisionError ProvisionOutcome :=
  match existing with
  | some c => Except.ok ⟨c, false, none⟩
  | none =>
      match provisioning_configuration vmSize 0 nodeCount with
      | Except.error e => Except.error e
      | Except.ok s =>
          Except.ok ⟨⟨clusterName, s.vmSize, s.minNodes, s.maxNodes⟩, true,
            trace.find? (fun st => st.terminal)⟩

/-! ## Entry-point script command-line surface (`train.py` argparse block)

The `%%writefile $project_dir/train.py` cell declares:
```python
parser = argparse.ArgumentParser()
parser.add_argument("--seed", type=int, default=42, ...)
parser.add_argument("--epochs", type=int, default=2, ...)
parser.add_argument("--no-cuda", action="store_true", default=False, ...)
parser.add_argument("--data_percent_used", type=float, default=1.0, ...)
args = parser.parse_args()
```
The parsed record and the token-level parse are embedded below; an option
string not among the four declared flags makes `parse_args` fail, as argparse
errors out on unrecognized arguments.  Numeric values are modelled over ℚ.
-/

structure TrainArgs where
  seed : Int
  epochs : Int
  no_cuda : Bool
  data_percent_used : ℚ
deriving DecidableEq

def defaultTrainArgs : TrainArgs := ⟨42, 2, false, 1.0⟩

def digitVal (c : Char) : Option Nat :=
  if 48 ≤ c.toNat ∧ c.toNat ≤ 57 then some (c.toNat - 48) else none

def digitsToNat : List Char → Nat → Option Nat
  | [], acc => some acc
  | c :: cs, acc =>
      match digitVal c with
      | some d => digitsToNat cs (acc * 10 + d)
      | none => none

/-- Decimal natural-number literal. -/
def strToNat (s : String) : Option Nat :=
  match s.data with
  | [] => none
  | l => digitsToNat l 0

/-- Decimal integer literal with optional leading minus sign (the shape
`int(...)` accepts for argparse values). -/
def strToInt (s : String) : Option Int :=
  match s.data with
  | [] => none
  | c :: cs =>
      if c = Char.ofNat 45 then (digitsToNat cs 0).map (fun n => -(n : Int))
      else (digitsToNat (c :: cs) 0).map (fun n => (n : Int))

/-- Decimal literal of the shape `float(...)` accepts for the values the
notebook passes (an optional sign, an integer part, and an optional
fractional part), read into ℚ. -/
def strToRat (s : String) : Option ℚ :=
  match s.splitOn "." with
  | [a] => (strToInt a).map (fun i => (i : ℚ))
  | [a, b] =>
      match strToInt a, strToNat b with
      | some i, some f =>
          let frac : ℚ := (f : ℚ) / ((10 : ℚ) ^ b.length)
          some (if s.startsWith "-" then (i : ℚ) - frac else (i : ℚ) + frac)
      | _, _ => none
  | _ => none

/-- Token-level parse of the declared flags, accumulating into the record of
defaults; any other option string is an argparse error (`none`). -/
def parseTrainTokens : List String → TrainArgs → Option TrainArgs
  | [], acc => some acc
  | "--seed" :: v :: rest, acc =>
      match strToInt v with
      | some i => parseTrainTokens rest { acc with seed := i }
      | none => none
  | "--epochs" :: v :: rest, acc =>
      match strToInt v with
      | some i => parseTrainTokens rest { acc with epochs := i }
      | none => none
  | "--no-cuda" :: rest, acc => parseTrainTokens rest { acc with no_cuda := true }
  | "--data_percent_used" :: v :: rest, acc =>
      match strToRat v with
      | some q => parseTrainTokens rest { acc with data_percent_used := q }
      | none => none
  | _, _ => none

/-- `parser.parse_args()` on a command line. -/
def parse_args (argv : List String) : Option TrainArgs :=
  parseTrainTokens argv defaultTrainArgs

/-! ## Run Monitor (`run.wait_for_completion()`) and RunHandle status

The notebook calls `run.wait_for_completion()` on the handle returned by
`experiment.submit(est)`.  The `Run` class lives in the Azure ML SDK, not in
this repository; its status machine and blocking wait are modelled from the
specification: statuses `Queued`/`Running` progress only forward into a
terminal status among `Succeeded`/`Failed`/`Canceled`, and `wait()` blocks,
polling, until the first terminal status is observed.
-/

inductive RunStatus where
  | queued
  | running
  | succeeded
  | failed
  | canceled
deriving DecidableEq

def RunStatus.isTerminal : RunStatus → Bool
  | RunStatus.queued => false
  | RunStatus.running => false
  | RunStatus.succeeded => true
  | RunStatus.failed => true
  | RunStatus.canceled => true

/-- Progress rank of a status: `Queued` before `Running` before terminal. -/
def RunStatus.stage : RunStatus → Nat
  | RunStatus.queued => 0
  | RunStatus.running => 1
  | _ => 2

/-- Modelled from the spec: the transitions a RunHandle's status may take
between two successive polls — only forward through `Queued`, `Running` into
a terminal status, and a terminal status only to itself. -/
def statusStep (s t : RunStatus) : Bool :=
  if s.isTerminal then s = t else decide (s.stage ≤ t.stage)

/-- Modelled from the spec: `wait_for_completion` polls the run's status at a
fixed interval and returns the first terminal status observed; on a trace
with no terminal status it never returns (`none`). -/
def wait_for_completion (trace : List RunStatus) : Option RunStatus :=
  trace.find? (fun s => s.isTerminal)

/-! ## Job Submitter (the estimator cell and `experiment.submit`)

The notebook cells are:
```python
mpiConfig = MpiConfiguration()
mpiConfig.process_count_per_node = NUM_PROCESS
script_params = {'--data_percent_used': DATA_PERCENT_USED}
est = PyTorch(source_directory=project_dir, ..., entry_script="train.py",
              script_params=script_params, node_count=NODE_COUNT,
              distributed_training=mpiConfig, use_gpu=True,
              framework_version="1.0", ...)
experiment = Experiment(ws, name="NLP-Entailment-BERT")
run = experiment.submit(est)
```
`experiment.submit` is SDK code; modelled from the spec, it is asynchronous:
it returns a RunHandle immediately and performs no waiting, which the
embedding expresses by leaving the status trace available to later polling
untouched (a blocking call would consume a prefix of it, as
`wait_for_completion` does).
-/

structure MpiConfigurationSpec where
  process_count_per_node : Nat
deriving DecidableEq

structure Estimator where
  source_directory : String
  entry_script : String
  script_params : List (String × ℚ)
  node_count : Nat
  distributed_training : MpiConfigurationSpec
  use_gpu : Bool
  framework_version : String
deriving DecidableEq

/-- The estimator the notebook constructs. -/
def est : Estimator :=
  ⟨"./entail_utils", "train.py", [("--data_percent_used", DATA_PERCENT_USED)],
    NODE_COUNT, ⟨NUM_PROCESS⟩, true, "1.0"⟩

/-- The process topology of the distributed run specification:
`node_count × processes_per_node`. -/
def processTopology (e : Estimator) : Nat :=
  e.node_count * e.distributed_training.process_count_per_node

structure RunHandle where
  experimentName : String
  descriptor : Estimator
deriving DecidableEq

/-- Modelled from the spec: `experiment.submit(est)` returns a RunHandle for
the submitted descriptor immediately, consuming nothing from the status
trace that subsequent polls and waits will read. -/
def submit (experimentName : String) (e : Estimator)
    (trace : List RunStatus) : RunHandle × List RunStatus :=
  (⟨experimentName, e⟩, trace)

/-! ## `train.py` rank-dependent behaviour

From the `%%writefile $project_dir/train.py` cell:
```python
OUTPUT_DIR = "./outputs/"
CACHE_DIR = "./xnli-%d" % hvd.rank()
...
if hvd.rank() == 0:
    test_dataset = XnliDataset(file_split=TEST_FILE_SPLIT, ...)
    predictions, pred_labels = classifier.predict(test_loader, NUM_GPUS)
    results = classification_report(...)
    result_file = os.path.join(OUTPUT_DIR, "results.json")
    with open(result_file, "w+") as fp:
        json.dump(results, fp)
    classifier.save_model()
```
The block after training is guarded by `hvd.rank() == 0`; its observable
effects (evaluating on the test split, writing the results artifact, saving
the model) are listed per rank.  `os.path.join("./outputs/", "results.json")`
yields `"./outputs/results.json"` since the first component ends in a slash.
-/

def OUTPUT_DIR : String := "./outputs/"

inductive TrainEffect where
  | evaluateTestSplit
  | writeFile (path : String)
  | saveModel
deriving DecidableEq

/-- POSIX `os.path.join` for a relative second component: no separator is
inserted when the first component already ends in a slash. -/
def osPathJoin (a b : String) : String :=
  if a.data.getLast? = some (Char.ofNat 47) then a ++ b else a ++ "/" ++ b

/-- The effects the post-training block of `train.py` performs on the worker
of the given Horovod rank. -/
def rankZeroBlock (rank : Nat) : List TrainEffect :=
  if rank = 0 then
    [TrainEffect.evaluateTestSplit,
     TrainEffect.writeFile (osPathJoin OUTPUT_DIR "results.json"),
     TrainEffect.saveModel]
  else []

/-- Decimal rendering of a natural number, as Python's `"%d"` formats a
nonnegative integer: the base-10 digits, most significant first. -/
def natDecimal (n : Nat) : String :=
  if n = 0 then "0"
  else String.mk ((Nat.digits 10 n).reverse.map Nat.digitChar)

/-- `CACHE_DIR = "./xnli-%d" % hvd.rank()`. -/
def CACHE_DIR (rank : Nat) : String := "./xnli-" ++ natDecimal rank

/-! ## Shared helper lemmas -/

theorem string_data_inj (a b : String) (h : a.data = b.data) : a = b := by
  cases a; cases b; exact congrArg String.mk h

theorem digitChar_inj_lt :
    ∀ a < 10, ∀ b < 10, Nat.digitChar a = Nat.digitChar b → a = b := by
  decide

theorem mapDigitChar_inj :
    ∀ l1 l2 : List Nat, (∀ d ∈ l1, d < 10) → (∀ d ∈ l2, d < 10) →
      l1.map Nat.digitChar = l2.map Nat.digitChar → l1 = l2
  | [], [], _, _, _ => rfl
  | [], _ :: _, _, _, h => by simp at h
  | _ :: _, [], _, _, h => by simp at h
  | a :: t1, b :: t2, h1, h2, h => by
      simp only [List.map_cons, List.cons.injEq] at h
      have ha := h1 a (by simp)
      have hb := h2 b (by simp)
      have hab : a = b := digitChar_inj_lt a ha b hb h.1
      subst hab
      have ht := mapDigitChar_inj t1 t2 (fun d hd => h1 d (by simp [hd]))
        (fun d hd => h2 d (by simp [hd])) h.2
      simp [ht]

theorem natDecimal_ne_zero_repr (n : Nat) (hn : n ≠ 0) :
    String.mk ((Nat.digits 10 n).reverse.map Nat.digitChar) ≠ "0" := by
  intro h
  have hchars : (Nat.digits 10 n).reverse.map Nat.digitChar = [Char.ofNat 48] :=
    congrArg String.data h
  have hlen : (Nat.digits 10 n).length = 1 := by
    have := congrArg List.length hchars
    simpa using this
  obtain ⟨d, hd⟩ : ∃ d, Nat.digits 10 n = [d] := by
    cases hdig : Nat.digits 10 n with
    | nil => simp [hdig] at hlen
    | cons a t =>
        cases t with
        | nil => exact ⟨a, rfl⟩
        | cons b t2 => simp [hdig] at hlen
  have hmem : d ∈ Nat.digits 10 n := by rw [hd]; exact List.mem_singleton.mpr rfl
  have hd10 : d < 10 := Nat.digits_lt_base (by norm_num) hmem
  have hchar : Nat.digitChar d = Nat.digitChar 0 := by
    rw [hd] at hchars
    simp at hchars
    rw [hchars]; rfl
  have hd0 : d = 0 := digitChar_inj_lt d hd10 0 (by norm_num) hchar
  have hzero : n = 0 := by
    have hof := Nat.ofDigits_digits 10 n
    rw [hd, hd0] at hof
    simpa [Nat.ofDigits] using hof.symm
  exact hn hzero

theorem natDecimal_inj (m n : Nat) (h : natDecimal m = natDecimal n) : m = n := by
  by_cases hm : m = 0 <;> by_cases hn : n = 0
  · rw [hm, hn]
  · exfalso
    unfold natDecimal at h
    rw [if_pos hm, if_neg hn] at h
    exact natDecimal_ne_zero_repr n hn h.symm
  · exfalso
    unfold natDecimal at h
    rw [if_neg hm, if_pos hn] at h
    exact natDecimal_ne_zero_repr m hm h
  · unfold natDecimal at h
    rw [if_neg hm, if_neg hn] at h
    have hchars : (Nat.digits 10 m).reverse.map Nat.digitChar =
        (Nat.digits 10 n).reverse.map Nat.digitChar := congrArg String.data h
    have hrev := mapDigitChar_inj _ _
      (fun d hd => Nat.digits_lt_base (by norm_num) (List.mem_reverse.mp hd))
      (fun d hd => Nat.digits_lt_base (by norm_num) (List.mem_reverse.mp hd)) hchars
    have hdig := List.reverse_injective hrev
    have hof := congrArg (Nat.ofDigits 10) hdig
    rwa [Nat.ofDigits_digits, Nat.ofDigits_digits] at hof

theorem parseTrainTokens_frame (l : List String) (acc r : TrainArgs)
    (h : parseTrainTokens l acc = some r) :
    ("--seed" ∉ l → r.seed = acc.seed) ∧
    ("--epochs" ∉ l → r.epochs = acc.epochs) ∧
    ("--no-cuda" ∉ l → r.no_cuda = acc.no_cuda) ∧
    ("--data_percent_used" ∉ l → r.data_percent_used = acc.data_percent_used) := by
  induction l, acc using parseTrainTokens.induct generalizing r with
  | case1 acc =>
      simp only [parseTrainTokens, Option.some.injEq] at h
      subst h
      simp
  | case2 v rest acc i hv ih =>
      simp only [parseTrainTokens, hv] at h
      have hr := ih r h
      refine ⟨?_, ?_, ?_, ?_⟩ <;> intro hm <;> simp only [List.mem_cons, not_or] at hm
      · exact (hm.1 trivial).elim
      · exact (hr.2.1 hm.2.2)
      · exact (hr.2.2.1 hm.2.2)
      · exact (hr.2.2.2 hm.2.2)
  | case3 v rest acc hv =>
      simp only [parseTrainTokens, hv] at h
      exact Option.noConfusion h
  | case4 v rest acc i hv ih =>
      simp only [parseTrainTokens, hv] at h
      have hr := ih r h
      refine ⟨?_, ?_, ?_, ?_⟩ <;> intro hm <;> simp only [List.mem_cons, not_or] at hm
      · exact (hr.1 hm.2.2)
      · exact (hm.1 trivial).elim
      · exact (hr.2.2.1 hm.2.2)
      · exact (hr.2.2.2 hm.2.2)
  | case5 v rest acc hv =>
      simp only [parseTrainTokens, hv] at h
      exact Option.noConfusion h
  | case6 rest acc ih =>
      simp only [parseTrainTokens] at h
      have hr := ih r h
      refine ⟨?_, ?_, ?_, ?_⟩ <;> intro hm <;> simp only [List.mem_cons, not_or] at hm
      · exact (hr.1 hm.2)
      · exact (hr.2.1 hm.2)
      · exact (hm.1 trivial).elim
      · exact (hr.2.2.2 hm.2)
  | case7 v rest acc q hv ih =>
      simp only [parseTrainTokens, hv] at h
      have hr := ih r h
      refine ⟨?_, ?_, ?_, ?_⟩ <;> intro hm <;> simp only [List.mem_cons, not_or] at hm
      · exact (hr.1 hm.2.2)
      · exact (hr.2.1 hm.2.2)
      · exact (hr.2.2.1 hm.2.2)
      · exact (hm.1 trivial).elim
  | case8 v rest acc hv =>
      simp only [parseTrainTokens, hv] at h
      exact Option.noConfusion h
  | case9 x1 x2 hne =>
      simp only [parseTrainTokens] at h
      exact Option.noConfusion h

theorem rankZeroBlock_zero_eq :
    rankZeroBlock 0 = [TrainEffect.evaluateTestSplit,
      TrainEffect.writeFile "./outputs/results.json", TrainEffect.saveModel] := by
  decide

/-! ## Claim theorems -/

/-- C1 counterexample: with `DEBUG = False` the staging cell is not
destructive to prior staging state — a stale entry survives the copy, and a
second copy into a staging directory that already holds `utils_nlp` fails
with `FileExistsError` instead of first deleting the directory.  So the
deletion is not unconditional "regardless of any debug flag". -/
theorem jobPackager_nondebug_counterexample :
    jobPackager false (7 : Nat) (some [("stale", 99)]) =
      Except.ok (some [("stale", 99), ("utils_nlp", 7)]) ∧
    jobPackager false (7 : Nat) (some [("stale", 99)]) ≠
      Except.ok (some [("utils_nlp", 7)]) ∧
    jobPackager false (7 : Nat) (some [("utils_nlp", 7)]) =
      Except.error CopyError.fileExists := by
  decide

/-- C1 (amended): the staging cell deletes a prior staging directory only
when `DEBUG` is set; the notebook sets `DEBUG = True`, and under that setting
every invocation — and hence two invocations in succession — leaves exactly
one copy of the library tree with no stale files from any prior copy. -/
theorem jobPackager_debug_clean_copy {α : Type} (lib : α)
    (staging : Option (List (String × α))) :
    jobPackager DEBUG lib staging = Except.ok (some [("utils_nlp", lib)]) ∧
    jobPackager DEBUG lib (some [("utils_nlp", lib)]) =
      Except.ok (some [("utils_nlp", lib)]) := by
  constructor
  · cases staging <;> simp [jobPackager, DEBUG]
  · simp [jobPackager, DEBUG]

/-- C2 counterexample: for the specification's own example input, the columns
of the rendered table are not in the order precision, recall, f1-score,
support — pandas sorts the column index, as the notebook's recorded output
shows. -/
theorem renderResults_column_order_counterexample :
    (renderResults exampleDoc).1 ≠ ["precision", "recall", "f1-score", "support"] := by
  decide

/-- C2 (amended): the rendered table is row-labeled by class (rows are the
input's outer keys in order), its columns appear in pandas' sorted key order
f1-score, precision, recall, support, and for the example input the
entailment row reads f1-score=0.82, precision=0.87, recall=0.76,
support=1670.0 under that column order. -/
theorem renderResults_rows_and_entailment_row :
    (∀ doc : ResultsDoc, (renderResults doc).2.map Prod.fst = doc.map Prod.fst) ∧
    (renderResults exampleDoc).1 = ["f1-score", "precision", "recall", "support"] ∧
    ((renderResults exampleDoc).2.find? (fun row => row.1 = "entailment")).map
        Prod.snd =
      some [some (Jval.num 0.82), some (Jval.num 0.87), some (Jval.num 0.76),
        some (Jval.num 1670.0)] := by
  refine ⟨?_, by decide, rfl⟩
  intro doc
  simp [renderResults]

/-- C3 counterexample: on an input whose `entailment` record is missing the
required key `support`, the rendering cell does not fail — it produces a
table, with `NaN` (here `none`) in the missing cell. -/
theorem renderResults_missing_key_counterexample :
    renderResults malformedDoc =
      (["f1-score", "precision", "recall", "support"],
       [("entailment",
          [some (Jval.num 0.82), some (Jval.num 0.87), some (Jval.num 0.76), none]),
        ("micro avg",
          [some (Jval.num 0.81), some (Jval.num 0.81), some (Jval.num 0.81),
           some (Jval.num 5010.0)])]) := rfl

/-- C3 (amended): the rendering cell performs no schema validation and raises
no `MalformedResultsError` (no such error exists in the code): it always
produces a table with one row per input row; a missing required key renders
as `NaN` in that row's cell, and a non-numeric value is rendered as given. -/
theorem renderResults_no_validation :
    (∀ doc : ResultsDoc, (renderResults doc).2.length = doc.length) ∧
    ((renderResults malformedDoc).2.find? (fun row => row.1 = "entailment")).map
        Prod.snd =
      some [some (Jval.num 0.82), some (Jval.num 0.87), some (Jval.num 0.76), none] ∧
    ((renderResults nonNumericDoc).2.find? (fun row => row.1 = "entailment")).map
        Prod.snd =
      some [some (Jval.num 0.82), some (Jval.str "N/A"), some (Jval.num 0.76),
        some (Jval.num 1670.0)] := by
  refine ⟨?_, rfl, rfl⟩
  intro doc
  simp [renderResults]

/-- C4: requesting a cluster with max node count 0 is rejected with
`ConfigurationError`, and every accepted autoscale configuration satisfies
`0 ≤ min ≤ max`. -/
theorem provisioning_configuration_bounds :
    (∀ (v : String) (m : Int),
      provisioning_configuration v m 0 =
        Except.error ProvisionError.configurationError) ∧
    (∀ (v : String) (m M : Int) (s : ScaleSettings),
      provisioning_configuration v m M = Except.ok s →
      0 ≤ s.minNodes ∧ s.minNodes ≤ s.maxNodes) := by
  constructor
  · intro v m
    simp [provisioning_configuration]
  · intro v m M s h
    by_cases h0 : M = 0
    · unfold provisioning_configuration at h
      rw [if_pos h0] at h
      exact Except.noConfusion h
    · by_cases hb : 0 ≤ m ∧ m ≤ M
      · unfold provisioning_configuration at h
        rw [if_neg h0, if_pos hb] at h
        injection h with h2
        subst h2
        exact hb
      · unfold provisioning_configuration at h
        rw [if_neg h0, if_neg hb] at h
        exact Except.noConfusion h

/-- C4 witness: the rejection at max node count 0, and the bounds of the
configuration the notebook's call (`min = 0`, `max = 4`) is accepted with. -/
theorem provisioning_configuration_bounds_instance :
    provisioning_configuration "STANDARD_NC6" 0 0 =
      Except.error ProvisionError.configurationError ∧
    (0 ≤ (ScaleSettings.mk "STANDARD_NC6" 0 4).minNodes ∧
      (ScaleSettings.mk "STANDARD_NC6" 0 4).minNodes ≤
        (ScaleSettings.mk "STANDARD_NC6" 0 4).maxNodes) :=
  ⟨provisioning_configuration_bounds.1 "STANDARD_NC6" 0,
   provisioning_configuration_bounds.2 "STANDARD_NC6" 0 4
     ⟨"STANDARD_NC6", 0, 4⟩ (by decide)⟩

/-- C5: on a lookup hit the provisioning cell returns the existing cluster's
handle unchanged (same VM size and bounds) and issues no create request; on a
lookup miss it issues a create request with autoscale bounds
`[0, nodeCount]` and blocks until the first terminal provisioning state of
the polled trace. -/
theorem linkComputeTarget_get_or_create :
    (∀ (c : Cluster) (clusterName vmSize : String) (nodeCount : Int)
        (trace : List ProvState),
      linkComputeTarget (some c) clusterName vmSize nodeCount trace =
        Except.ok ⟨c, false, none⟩) ∧
    (∀ (clusterName vmSize : String) (nodeCount : Int) (trace : List ProvState),
      0 < nodeCount →
      linkComputeTarget none clusterName vmSize nodeCount trace =
        Except.ok ⟨⟨clusterName, vmSize, 0, nodeCount⟩, true,
          trace.find? (fun st => st.terminal)⟩) := by
  constructor
  · intro c clusterName vmSize nodeCount trace
    rfl
  · intro clusterName vmSize nodeCount trace hpos
    have h0 : ¬ nodeCount = 0 := by omega
    have hb : (0 : Int) ≤ 0 ∧ (0 : Int) ≤ nodeCount := by omega
    simp [linkComputeTarget, provisioning_configuration, h0, hb]

/-- C5 witness: the lookup hit on the notebook's existing `gpu-entail`
cluster (returned untouched, no create), and a lookup miss that creates with
bounds `[0, 4]` and waits through `creating` to the terminal `succeeded`. -/
theorem linkComputeTarget_get_or_create_instance :
    linkComputeTarget (some ⟨"gpu-entail", "STANDARD_NC6S_V2", 0, 4⟩)
        "gpu-entail" "STANDARD_NC6" 4 [] =
      Except.ok ⟨⟨"gpu-entail", "STANDARD_NC6S_V2", 0, 4⟩, false, none⟩ ∧
    linkComputeTarget none "gpu-entail" "STANDARD_NC6" 4
        [ProvState.creating, ProvState.succeeded] =
      Except.ok ⟨⟨"gpu-entail", "STANDARD_NC6", 0, 4⟩, true,
        some ProvState.succeeded⟩ := by
  constructor
  · exact linkComputeTarget_get_or_create.1 _ _ _ _ _
  · have h2 := linkComputeTarget_get_or_create.2 "gpu-entail" "STANDARD_NC6" 4
      [ProvState.creating, ProvState.succeeded] (by decide)
    rw [h2]
    decide

/-- C6: the training script accepts exactly the flags `--seed` (int, default
42), `--epochs` (int, default 2), `--no-cuda` (boolean flag, default false)
and `--data_percent_used` (float, default 1.0): any other option string is
rejected, and for every invocation omitting a flag the corresponding parsed
value equals that default. -/
theorem parse_args_flag_surface :
    (∀ (argv : List String) (r : TrainArgs), parse_args argv = some r →
      ("--seed" ∉ argv → r.seed = 42) ∧
      ("--epochs" ∉ argv → r.epochs = 2) ∧
      ("--no-cuda" ∉ argv → r.no_cuda = false) ∧
      ("--data_percent_used" ∉ argv → r.data_percent_used = 1.0)) ∧
    (∀ (t : String) (rest : List String),
      t ≠ "--seed" → t ≠ "--epochs" → t ≠ "--no-cuda" → t ≠ "--data_percent_used" →
      parse_args (t :: rest) = none) := by
  constructor
  · intro argv r h
    have hf := parseTrainTokens_frame argv defaultTrainArgs r h
    simpa [defaultTrainArgs] using hf
  · intro t rest h1 h2 h3 h4
    unfold parse_args parseTrainTokens
    split <;> simp_all

/-- C6 witness: parsing `["--no-cuda"]` yields the defaults for the three
omitted flags, and an unrecognized option string is rejected. -/
theorem parse_args_flag_surface_instance :
    (TrainArgs.mk 42 2 true 1.0).seed = 42 ∧
    (TrainArgs.mk 42 2 true 1.0).epochs = 2 ∧
    (TrainArgs.mk 42 2 true 1.0).data_percent_used = 1.0 ∧
    parse_args ["--foo"] = none := by
  have h1 := parse_args_flag_surface.1 ["--no-cuda"] ⟨42, 2, true, 1.0⟩ rfl
  exact ⟨h1.1 (by decide), h1.2.1 (by decide), h1.2.2.2 (by decide),
    parse_args_flag_surface.2 "--foo" [] (by decide) (by decide) (by decide)
      (by decide)⟩

/-- C7: a RunHandle's status transitions only forward through Queued and
Running into a terminal state among Succeeded, Failed, Canceled; a terminal
status never reverts; and `wait_for_completion` returns exactly once a
terminal state is reached — whatever it returns is terminal, and on a trace
whose first terminal status is `s` it returns `s`. -/
theorem runStatus_forward_wait_terminal :
    (∀ s t : RunStatus, statusStep s t = true → s.stage ≤ t.stage) ∧
    (∀ s t : RunStatus, s.isTerminal = true → statusStep s t = true → t = s) ∧
    (∀ (trace : List RunStatus) (s : RunStatus),
      wait_for_completion trace = some s → s.isTerminal = true) ∧
    (∀ (pre : List RunStatus) (s : RunStatus) (post : List RunStatus),
      (∀ x ∈ pre, x.isTerminal = false) → s.isTerminal = true →
      wait_for_completion (pre ++ s :: post) = some s) := by
  refine ⟨?_, ?_, ?_, ?_⟩
  · intro s t
    cases s <;> cases t <;> decide
  · intro s t
    cases s <;> cases t <;> decide
  · intro trace s h
    have := List.find?_some h
    simpa using this
  · intro pre s post hpre hs
    induction pre with
    | nil => simp [wait_for_completion, List.find?_cons, hs]
    | cons x xs ih =>
        have hx := hpre x (by simp)
        have ih2 : List.find? (fun y => y.isTerminal) (xs ++ s :: post) = some s :=
          ih (fun y hy => hpre y (by simp [hy]))
        show List.find? (fun y => y.isTerminal) ((x :: xs) ++ s :: post) = some s
        simp [List.find?_cons, hx, ih2]

/-- C7 witness: a forward step Queued → Running, the terminality of what a
wait over a concrete trace returns, and the blocking wait on a trace whose
non-terminal prefix is followed by Succeeded. -/
theorem runStatus_forward_wait_terminal_instance :
    RunStatus.queued.stage ≤ RunStatus.running.stage ∧
    RunStatus.succeeded.isTerminal = true ∧
    wait_for_completion
        [RunStatus.queued, RunStatus.running, RunStatus.succeeded] =
      some RunStatus.succeeded := by
  refine ⟨runStatus_forward_wait_terminal.1 RunStatus.queued RunStatus.running
    (by decide), ?_, ?_⟩
  · exact runStatus_forward_wait_terminal.2.2.1
      [RunStatus.queued, RunStatus.running, RunStatus.succeeded]
      RunStatus.succeeded (by decide)
  · have h4 := runStatus_forward_wait_terminal.2.2.2
      [RunStatus.queued, RunStatus.running] RunStatus.succeeded []
      (by decide) (by decide)
    simpa using h4

/-- C8: the submitted distributed run specification has process topology
node_count × processes_per_node = 4 × 1 = 4, and `experiment.submit` returns
the RunHandle for the submitted descriptor immediately, consuming nothing
from the status trace (it performs no waiting). -/
theorem submit_topology_nonblocking :
    processTopology est = NODE_COUNT * NUM_PROCESS ∧
    processTopology est = 4 ∧
    est.node_count = 4 ∧
    est.distributed_training.process_count_per_node = 1 ∧
    (∀ (experimentName : String) (e : Estimator) (trace : List RunStatus),
      (submit experimentName e trace).1 = ⟨experimentName, e⟩ ∧
      (submit experimentName e trace).2 = trace) :=
  ⟨rfl, rfl, rfl, rfl, fun _ _ _ => ⟨rfl, rfl⟩⟩

/-- C9: exactly the worker with rank 0 evaluates on the test split, writes
the results artifact `./outputs/results.json` and saves the model; a worker
with non-zero rank performs none of these effects, so the results artifact
has at most one writer. -/
theorem rankZeroBlock_single_writer :
    rankZeroBlock 0 = [TrainEffect.evaluateTestSplit,
      TrainEffect.writeFile "./outputs/results.json", TrainEffect.saveModel] ∧
    (∀ rank : Nat, rank ≠ 0 → rankZeroBlock rank = []) ∧
    (∀ (rank : Nat) (p : String), TrainEffect.writeFile p ∈ rankZeroBlock rank →
      rank = 0 ∧ p = "./outputs/results.json") ∧
    (∀ rank : Nat, TrainEffect.saveModel ∈ rankZeroBlock rank → rank = 0) := by
  refine ⟨rankZeroBlock_zero_eq, ?_, ?_, ?_⟩
  · intro rank hr
    simp [rankZeroBlock, hr]
  · intro rank p hp
    by_cases hr : rank = 0
    · subst hr
      rw [rankZeroBlock_zero_eq] at hp
      simp only [List.mem_cons, List.not_mem_nil, or_false] at hp
      rcases hp with hp | hp | hp
      · exact TrainEffect.noConfusion hp
      · injection hp with hp2
        exact ⟨rfl, hp2⟩
      · exact TrainEffect.noConfusion hp
    · simp [rankZeroBlock, hr] at hp
  · intro rank hp
    by_cases hr : rank = 0
    · exact hr
    · simp [rankZeroBlock, hr] at hp

/-- C9 witness: a non-zero rank performs no effects, and the writer of the
results artifact is rank 0. -/
theorem rankZeroBlock_single_writer_instance :
    rankZeroBlock 1 = [] ∧ (0 : Nat) = 0 := by
  refine ⟨rankZeroBlock_single_writer.2.1 1 (by decide), ?_⟩
  exact rankZeroBlock_single_writer.2.2.2 0 (by rw [rankZeroBlock_zero_eq]; decide)

/-- C10: every worker derives its cache directory from its own rank as
`./xnli-<rank>` (shown concretely for ranks 0 and 3), and any two workers
with distinct ranks get distinct cache directory paths — no cache directory
is shared. -/
theorem CACHE_DIR_rank_distinct :
    CACHE_DIR 0 = "./xnli-0" ∧ CACHE_DIR 3 = "./xnli-3" ∧
    (∀ r1 r2 : Nat, r1 ≠ r2 → CACHE_DIR r1 ≠ CACHE_DIR r2) := by
  refine ⟨rfl, ?_, ?_⟩
  · show "./xnli-" ++ natDecimal 3 = "./xnli-3"
    norm_num [natDecimal]
    rfl
  · intro r1 r2 hne he
    apply hne
    apply natDecimal_inj
    apply string_data_inj
    have hd := congrArg String.data he
    rw [CACHE_DIR, CACHE_DIR, String.data_append, String.data_append] at hd
    exact List.append_cancel_left hd

/-- C10 witness: the workers of ranks 0 and 1 use different cache
directories. -/
theorem CACHE_DIR_rank_distinct_instance : CACHE_DIR 0 ≠ CACHE_DIR 1 :=
  CACHE_DIR_rank_distinct.2.2 0 1 (by decide)

end XnliAzureml
